import Mathlib

/-!
# Sendamatic Go client — verification of the send pipeline

Shallow embedding of the sendamatic Go client library: the `Message` model
with its builder and `Validate` check (message.go), base64 attachment
encoding (encoding/base64 StdEncoding), the error decoder
(`parseErrorResponse`, errors.go), the success-response decoder and the
per-recipient queries (`SendResponse.GetStatus`, response.go), and the
`Send` orchestrator (client.go).

Go's dynamically typed `interface{}` values are modelled by `GoValue`;
JSON documents already parsed by the standard library are modelled by
`JValue`; a raw HTTP body is a `RawBody`: its verbatim text together with
the standard library parser's outcome on it (`none` when the text is not
syntactically valid JSON). Go `int` is modelled by `Int`
(no claim involves 64-bit overflow) and the `float64` values produced by
JSON number decoding are modelled by `ℚ` (every JSON numeric literal
denotes a rational; no claim involves float rounding).
-/

namespace Sendamatic

/-- A custom email header name/value pair (struct `Header`, message.go). -/
structure Header where
  Header : String
  Value : String
  deriving Repr, DecidableEq

/-- An email attachment; `Data` holds the base64-encoded payload
(struct `Attachment`, message.go). -/
structure Attachment where
  Filename : String
  Data : String
  MimeType : String
  deriving Repr, DecidableEq

/-- An email message (struct `Message`, message.go). -/
structure Message where
  To : List String
  CC : List String
  BCC : List String
  Sender : String
  Subject : String
  TextBody : String
  HTMLBody : String
  Headers : List Header
  Attachments : List Attachment
  deriving Repr, DecidableEq

/-- `NewMessage()`: all collections start empty, all strings zero-valued. -/
def NewMessage : Message :=
  { To := [], CC := [], BCC := [], Sender := "", Subject := "",
    TextBody := "", HTMLBody := "", Headers := [], Attachments := [] }

/-- `AddTo` appends a recipient. -/
def Message.AddTo (m : Message) (email : String) : Message :=
  { m with To := m.To ++ [email] }

/-- `AddCC` appends a CC recipient. -/
def Message.AddCC (m : Message) (email : String) : Message :=
  { m with CC := m.CC ++ [email] }

/-- `AddBCC` appends a BCC recipient. -/
def Message.AddBCC (m : Message) (email : String) : Message :=
  { m with BCC := m.BCC ++ [email] }

/-- `SetSender` overwrites the sender. -/
def Message.SetSender (m : Message) (email : String) : Message :=
  { m with Sender := email }

/-- `SetSubject` overwrites the subject. -/
def Message.SetSubject (m : Message) (subject : String) : Message :=
  { m with Subject := subject }

/-- `SetTextBody` overwrites the plain-text body. -/
def Message.SetTextBody (m : Message) (body : String) : Message :=
  { m with TextBody := body }

/-- `SetHTMLBody` overwrites the HTML body. -/
def Message.SetHTMLBody (m : Message) (body : String) : Message :=
  { m with HTMLBody := body }

/-- `AddHeader` appends a custom header. -/
def Message.AddHeader (m : Message) (name value : String) : Message :=
  { m with Headers := m.Headers ++ [{ Header := name, Value := value }] }

/-- `Validate()` (message.go): returns the first violated condition's
error text, or `none` when the message is valid. Mirrors the Go code's
check order exactly. -/
def Message.Validate (m : Message) : Option String :=
  if m.To.length = 0 then some "at least one recipient required"
  else if m.To.length > 255 then some "maximum 255 recipients allowed"
  else if m.Sender = "" then some "sender is required"
  else if m.Subject = "" then some "subject is required"
  else if m.TextBody = "" ∧ m.HTMLBody = "" then
    some "either text_body or html_body is required"
  else none

/-! ## Base64 (encoding/base64, `StdEncoding`)

A byte is a `Nat` below 256. Go's `base64.StdEncoding.EncodeToString`
groups the input three bytes at a time into four six-bit values, maps
each through the standard alphabet, and pads a final partial group with
`'='`. The decoder inverts this; Go's default (non-strict) decoder does
not insist that unused trailing bits are zero, and neither does ours. -/

/-- The standard base64 alphabet, in index order. -/
def base64Alphabet : List Char :=
  "ABCDEFGHIJKLMNOPQRSTUVWXYZabcdefghijklmnopqrstuvwxyz0123456789+/".toList

/-- The alphabet character for a six-bit value. -/
def sextetChar (s : Nat) : Char :=
  base64Alphabet.getD s '='

/-- The six-bit value of an alphabet character, `none` for anything else
(including `'='`). -/
def sextetVal (c : Char) : Option Nat :=
  base64Alphabet.indexOf? c

/-- Encode a byte list three bytes at a time (base64.go `Encode`). -/
def base64EncodeList : List Nat → List Char
  | [] => []
  | [b0] =>
      [sextetChar (b0 / 4), sextetChar (b0 % 4 * 16), '=', '=']
  | [b0, b1] =>
      [sextetChar (b0 / 4), sextetChar (b0 % 4 * 16 + b1 / 16),
       sextetChar (b1 % 16 * 4), '=']
  | b0 :: b1 :: b2 :: rest =>
      sextetChar (b0 / 4) :: sextetChar (b0 % 4 * 16 + b1 / 16) ::
      sextetChar (b1 % 16 * 4 + b2 / 64) :: sextetChar (b2 % 64) ::
      base64EncodeList rest

/-- Decode four characters at a time (base64.go `Decode`, non-strict):
a quantum ending in `"=="` yields one byte, one ending in `"="` yields
two, a full quantum yields three; any other shape or any character
outside the alphabet fails. -/
def base64DecodeList : List Char → Option (List Nat)
  | [] => some []
  | c0 :: c1 :: c2 :: c3 :: rest =>
      match sextetVal c0, sextetVal c1 with
      | some s0, some s1 =>
          if c2 = '=' then
            if c3 = '=' ∧ rest = [] then some [s0 * 4 + s1 / 16] else none
          else
            match sextetVal c2 with
            | some s2 =>
                if c3 = '=' then
                  if rest = [] then
                    some [s0 * 4 + s1 / 16, s1 % 16 * 16 + s2 / 4]
                  else none
                else
                  match sextetVal c3 with
                  | some s3 =>
                      (base64DecodeList rest).map
                        (fun tl => (s0 * 4 + s1 / 16) ::
                          (s1 % 16 * 16 + s2 / 4) :: (s2 % 4 * 64 + s3) :: tl)
                  | none => none
            | none => none
      | _, _ => none
  | _ => none

/-- `base64.StdEncoding.EncodeToString`. -/
def base64EncodeToString (data : List Nat) : String :=
  String.mk (base64EncodeList data)

/-- `base64.StdEncoding.DecodeString`. -/
def base64DecodeString (s : String) : Option (List Nat) :=
  base64DecodeList s.toList

/-- `AttachFile` (message.go): appends an attachment whose `Data` is the
base64 encoding of the given bytes, computed at attach time. -/
def Message.AttachFile (m : Message) (filename mimeType : String)
    (data : List Nat) : Message :=
  { m with Attachments := m.Attachments ++
      [{ Filename := filename, Data := base64EncodeToString data,
         MimeType := mimeType }] }

/-! ## Dynamic values and JSON documents

`GoValue` models a Go `interface{}` value together with its dynamic type:
the JSON decoder only ever produces `vnil`, `vbool`, `vfloat` (every JSON
number decodes to a `float64`), `vstr`, `varr` and `vobj`, but Go code can
also place an `int`-typed value (`vint`) directly into an
`interface{}` slot, as the repository's own tests do. -/

inductive GoValue where
  | vnil
  | vbool (b : Bool)
  | vfloat (q : ℚ)
  | vint (n : Int)
  | vstr (s : String)
  | varr (elems : List GoValue)
  | vobj (fields : List (String × GoValue))

/-- A parsed JSON document. -/
inductive JValue where
  | null
  | bool (b : Bool)
  | num (q : ℚ)
  | str (s : String)
  | arr (elems : List JValue)
  | obj (fields : List (String × JValue))

mutual

/-- Decoding a JSON value into an empty `interface{}`: numbers become
`float64`, objects become `map[string]interface{}`, arrays become
`[]interface{}`. -/
def JValue.toGo : JValue → GoValue
  | .null => .vnil
  | .bool b => .vbool b
  | .num q => .vfloat q
  | .str s => .vstr s
  | .arr elems => .varr (JValue.listToGo elems)
  | .obj fields => .vobj (JValue.fieldsToGo fields)

/-- Element-wise decode of a JSON array into `[]interface{}`. -/
def JValue.listToGo : List JValue → List GoValue
  | [] => []
  | v :: vs => v.toGo :: JValue.listToGo vs

/-- Field-wise decode of a JSON object into `map[string]interface{}`. -/
def JValue.fieldsToGo : List (String × JValue) → List (String × GoValue)
  | [] => []
  | (k, v) :: fs => (k, v.toGo) :: JValue.fieldsToGo fs

end

/-- A raw HTTP body: the verbatim text and the standard library JSON
parser's outcome on it (`none` when the text is not syntactically valid
JSON, e.g. for the empty string or plain prose). -/
structure RawBody where
  text : String
  json : Option JValue

/-! ## Error decoder (errors.go) -/

/-- `APIError` (errors.go): `StatusCode` carries the tag `json:"-"` and
is never read from a body; `Message` is tagged `error`, the rest
`validation_errors`, `json_path`, `sender`, `smtp_code`. -/
structure APIError where
  StatusCode : Int
  Message : String
  ValidationErrors : String
  JSONPath : String
  Sender : String
  SMTPCode : Int
  deriving Repr, DecidableEq

/-- The zero `APIError` with a given status code, as built at the top of
`parseErrorResponse` before unmarshalling. -/
def APIError.zeroWith (statusCode : Int) : APIError :=
  { StatusCode := statusCode, Message := "", ValidationErrors := "",
    JSONPath := "", Sender := "", SMTPCode := 0 }

/-- `(*APIError).Error()` (errors.go): `fmt.Sprintf` of the status code
and either the validation errors with their JSON path, or the message. -/
def APIError.Error (e : APIError) : String :=
  if e.ValidationErrors ≠ "" then
    "sendamatic api error (status " ++ toString e.StatusCode ++ "): " ++
      e.ValidationErrors ++ " (path: " ++ e.JSONPath ++ ")"
  else
    "sendamatic api error (status " ++ toString e.StatusCode ++ "): " ++
      e.Message

/-- One step of `encoding/json` object decoding into `APIError`: a key
matching a tagged field stores a value of the field's type, a JSON null
is a no-op, a value of the wrong type marks the decode as failed
(`encoding/json` records the type error but keeps decoding the remaining
keys, so fields already stored stay stored), and unknown keys are
ignored. A number stores into the `int` field `SMTPCode` only when it is
integral. -/
def applyErrorField (acc : APIError × Bool) (field : String × JValue) :
    APIError × Bool :=
  match field with
  | ("error", .str s) => ({ acc.1 with Message := s }, acc.2)
  | ("error", .null) => acc
  | ("error", _) => (acc.1, false)
  | ("validation_errors", .str s) => ({ acc.1 with ValidationErrors := s }, acc.2)
  | ("validation_errors", .null) => acc
  | ("validation_errors", _) => (acc.1, false)
  | ("json_path", .str s) => ({ acc.1 with JSONPath := s }, acc.2)
  | ("json_path", .null) => acc
  | ("json_path", _) => (acc.1, false)
  | ("sender", .str s) => ({ acc.1 with Sender := s }, acc.2)
  | ("sender", .null) => acc
  | ("sender", _) => (acc.1, false)
  | ("smtp_code", .num q) =>
      if q.den = 1 then ({ acc.1 with SMTPCode := q.num }, acc.2)
      else (acc.1, false)
  | ("smtp_code", .null) => acc
  | ("smtp_code", _) => (acc.1, false)
  | (_, _) => acc

/-- `json.Unmarshal(body, &apiErr)` on an already-parsed document: JSON
null leaves the struct untouched and succeeds; an object decodes its
fields in order; any other document is a type error that stores
nothing. Returns the (possibly partially) populated struct and whether
the unmarshal succeeded. -/
def unmarshalAPIError (init : APIError) (v : JValue) : APIError × Bool :=
  match v with
  | .null => (init, true)
  | .obj fields => fields.foldl applyErrorField (init, true)
  | _ => (init, false)

/-- `parseErrorResponse` (errors.go): set the status code, try to
unmarshal the body into the struct, and on unmarshal failure overwrite
`Message` with the raw body text. Total: always returns an `APIError`. -/
def parseErrorResponse (statusCode : Int) (body : RawBody) : APIError :=
  match body.json with
  | none => { APIError.zeroWith statusCode with Message := body.text }
  | some v =>
      if (unmarshalAPIError (APIError.zeroWith statusCode) v).2 then
        (unmarshalAPIError (APIError.zeroWith statusCode) v).1
      else
        { (unmarshalAPIError (APIError.zeroWith statusCode) v).1 with
            Message := body.text }

/-! ## Response decoder and queries (response.go) -/

/-- `SendResponse` (response.go): overall HTTP status and the decoded
`map[string][2]interface{}`, modelled as an association list with unique
keys; each entry is the two-element value array. -/
structure SendResponse where
  StatusCode : Int
  Recipients : List (String × (GoValue × GoValue))

/-- `IsSuccess()` — true iff the overall status is exactly 200. -/
def SendResponse.IsSuccess (r : SendResponse) : Bool :=
  r.StatusCode == 200

/-- Go's `int(f)` on a `float64`: truncation toward zero. On a rational
in lowest terms this is the T-division of the numerator by the
denominator. -/
def floatToInt (q : ℚ) : Int :=
  q.num.tdiv q.den

/-- `GetStatus` (response.go): look the address up; a `[2]interface{}`
always has length ≥ 1, so the length guard in the source is always true;
the first element is type-asserted to `float64` and truncated to `int`.
Any other dynamic type — or an absent address — yields `(0, false)`. -/
def SendResponse.GetStatus (r : SendResponse) (email : String) :
    Int × Bool :=
  match r.Recipients.lookup email with
  | some info =>
      match info.1 with
      | .vfloat q => (floatToInt q, true)
      | _ => (0, false)
  | none => (0, false)

/-- `GetMessageID` (response.go): the second element type-asserted to
`string`. -/
def SendResponse.GetMessageID (r : SendResponse) (email : String) :
    String × Bool :=
  match r.Recipients.lookup email with
  | some info =>
      match info.2 with
      | .vstr s => (s, true)
      | _ => ("", false)
  | none => ("", false)

/-- `json.Unmarshal` of one map value into `[2]interface{}`: JSON null
is a no-op that leaves the zero array `[nil, nil]`; a JSON array of any
length decodes element-wise, discarding elements past the second and
leaving missing ones `nil` (encoding/json array semantics); any other
value is a type error. -/
def unmarshalPair (v : JValue) : Option (GoValue × GoValue) :=
  match v with
  | .null => some (.vnil, .vnil)
  | .arr elems =>
      some (((elems.get? 0).map JValue.toGo).getD .vnil,
            ((elems.get? 1).map JValue.toGo).getD .vnil)
  | _ => none

/-- Go map insertion into the association-list model: replace the value
at an existing key, else append. -/
def assocInsert (m : List (String × (GoValue × GoValue))) (k : String)
    (v : GoValue × GoValue) : List (String × (GoValue × GoValue)) :=
  match m with
  | [] => [(k, v)]
  | (k', v') :: rest =>
      if k' = k then (k, v) :: rest else (k', v') :: assocInsert rest k v

/-- `json.Unmarshal(body, &sendResp.Recipients)` on an already-parsed
document: JSON null leaves the map nil (indistinguishable from empty for
lookups); an object decodes each value into `[2]interface{}`, inserting
into the map (later duplicate keys overwrite); anything else is a type
error failing the whole decode. -/
def unmarshalRecipients (v : JValue) :
    Option (List (String × (GoValue × GoValue))) :=
  match v with
  | .null => some []
  | .obj fields =>
      fields.foldlM
        (fun acc f => (unmarshalPair f.2).map (fun p => assocInsert acc f.1 p))
        []
  | _ => none

/-! ## Client and Send orchestrator (client.go)

The HTTP transport is an external collaborator: `Send` is parametrised
by a function from the request it issues to that transport's outcome,
and additionally returns the list of requests it issued, so that
"no network call" and "at most one request" are statements about the
returned trace. `json.Marshal` of a `Message` (a struct of strings,
string slices and structs of strings) cannot fail in Go, so the marshal
step is modelled by carrying the message as the request payload. -/

/-- `Client` (client.go): the derived API key and the base URL. The
`http.Client` transport itself is the external collaborator. -/
structure Client where
  apiKey : String
  baseURL : String

/-- `defaultBaseURL` (client.go). -/
def defaultBaseURL : String := "https://send.api.sendamatic.net"

/-- `NewClient` (client.go): the API key is `userID + "-" + password`.
(Configuration options only touch the transport or base URL and are not
involved in any claim.) -/
def NewClient (userID password : String) : Client :=
  { apiKey := userID ++ "-" ++ password, baseURL := defaultBaseURL }

/-- The HTTP request `Send` builds: POST to `baseURL + "/send"` with the
JSON content type, the API key header, and the marshalled message. -/
structure HTTPRequest where
  method : String
  url : String
  contentType : String
  apiKey : String
  payload : Message

/-- What the transport returns for one issued request. -/
inductive NetOutcome where
  | transportError (msg : String)
  | readError (status : Int) (msg : String)
  | response (status : Int) (body : RawBody)

/-- The error cases of `Send`, one per `return nil, ...` site. -/
inductive SendError where
  | validationFailed (msg : String)
  | requestFailed (msg : String)
  | readFailed (msg : String)
  | apiError (e : APIError)
  | unmarshalFailed

/-- The request `Send` constructs for a validated message. -/
def Client.buildRequest (c : Client) (msg : Message) : HTTPRequest :=
  { method := "POST", url := c.baseURL ++ "/send",
    contentType := "application/json", apiKey := c.apiKey, payload := msg }

/-- `Send` (client.go): validate, build and issue the request, then route
the body by status code — `parseErrorResponse` for status ≥ 400, the
recipients unmarshal otherwise. Returns the result together with the
list of requests issued. -/
def Client.Send (c : Client) (net : HTTPRequest → NetOutcome)
    (msg : Message) :
    Except SendError SendResponse × List HTTPRequest :=
  match msg.Validate with
  | some verr => (.error (.validationFailed verr), [])
  | none =>
      match net (c.buildRequest msg) with
      | .transportError e => (.error (.requestFailed e), [c.buildRequest msg])
      | .readError _ e => (.error (.readFailed e), [c.buildRequest msg])
      | .response status body =>
          if status ≥ 400 then
            (.error (.apiError (parseErrorResponse status body)),
             [c.buildRequest msg])
          else
            match body.json with
            | none => (.error .unmarshalFailed, [c.buildRequest msg])
            | some v =>
                match unmarshalRecipients v with
                | none => (.error .unmarshalFailed, [c.buildRequest msg])
                | some recips =>
                    (.ok { StatusCode := status, Recipients := recips },
                     [c.buildRequest msg])

/-! ## Spec-side definitions

These definitions transcribe the specification's wording (not the Go
code); the theorems below compare the code-side definitions against
them. -/

/-- Spec §4.1: the error texts of all violated validation conditions, in
the spec's fixed order (empty `to`; more than 255 entries; empty sender;
empty subject; both bodies empty). -/
def violationList (m : Message) : List String :=
  (if m.To.length = 0 then ["at least one recipient required"] else []) ++
  (if m.To.length > 255 then ["maximum 255 recipients allowed"] else []) ++
  (if m.Sender = "" then ["sender is required"] else []) ++
  (if m.Subject = "" then ["subject is required"] else []) ++
  (if m.TextBody = "" ∧ m.HTMLBody = "" then
    ["either text_body or html_body is required"] else [])

/-- Spec side: whether a dynamic value is numeric in the spec's sense,
regardless of its dynamic type: a `float64` or an `int`. -/
def GoValue.isNumericValue : GoValue → Bool
  | .vfloat _ => true
  | .vint _ => true
  | _ => false

/-- Spec side: the parsed success bodies the recipients decode accepts —
JSON null, or a JSON object each of whose values is an array (of any
length) or null. -/
def recipientsBodyAccepted : JValue → Bool
  | .null => true
  | .obj fields =>
      fields.all (fun f =>
        match f.2 with
        | .null => true
        | .arr _ => true
        | _ => false)
  | _ => false

/-! ## C1 — Validate reports the first violated condition -/

/-- C1: for every `Message`, `Validate` reports exactly the first
violated condition in the fixed order — empty `to`, then more than 255
entries in `to`, then empty sender, then empty subject, then both bodies
empty — and reports nothing when no condition is violated: it returns
the head of the ordered list of all violated conditions. -/
theorem validate_reports_first_violation (m : Message) :
    m.Validate = (violationList m).head? := by
  unfold Message.Validate violationList
  split_ifs <;> simp_all

/-! ## C6 — the both-bodies-empty violation text -/

/-- A message that is valid except that both bodies are empty. -/
def bodylessMessage : Message :=
  { To := ["to@example.com"], CC := [], BCC := [],
    Sender := "sender@example.com", Subject := "Hi", TextBody := "",
    HTMLBody := "", Headers := [], Attachments := [] }

/-- C6 counterexample: on a message violating only the body condition,
`Validate` reports `"either text_body or html_body is required"` (with
underscores, as in the Go source and its tests), not the claimed
`"either text body or html body is required"`. -/
theorem validate_body_violation_text_cex :
    bodylessMessage.Validate = some "either text_body or html_body is required" ∧
    bodylessMessage.Validate ≠ some "either text body or html body is required" := by
  constructor
  · rfl
  · decide

/-- C6 (amended): for every `Message` with non-empty `to` of at most 255
entries, non-empty sender, non-empty subject, and both `TextBody` and
`HTMLBody` empty, `Validate` reports the violation
`"either text_body or html_body is required"`. -/
theorem validate_reports_body_required (m : Message) (h1 : m.To ≠ [])
    (h2 : m.To.length ≤ 255) (h3 : m.Sender ≠ "") (h4 : m.Subject ≠ "")
    (h5 : m.TextBody = "") (h6 : m.HTMLBody = "") :
    m.Validate = some "either text_body or html_body is required" := by
  have h0 : ¬ m.To.length = 0 := by
    simpa [List.length_eq_zero] using h1
  have h255 : ¬ m.To.length > 255 := by omega
  simp [Message.Validate, h0, h255, h3, h4, h5, h6]

/-- C6 witness: the amended theorem applied to `bodylessMessage`. -/
theorem validate_reports_body_required_witness :
    bodylessMessage.Validate = some "either text_body or html_body is required" :=
  validate_reports_body_required bodylessMessage (by decide) (by decide)
    (by decide) (by decide) rfl rfl

/-! ## C7 — APIError formatting -/

/-- C7: for every `APIError`, the formatted string is
`"sendamatic api error (status <code>): <validationErrors> (path: <jsonPath>)"`
when `ValidationErrors` is non-empty and
`"sendamatic api error (status <code>): <message>"` otherwise, and the
`SMTPCode` and `Sender` fields never influence the formatted string. -/
theorem apiError_error_format (e : APIError) :
    (e.ValidationErrors ≠ "" →
      e.Error = "sendamatic api error (status " ++ toString e.StatusCode ++
        "): " ++ e.ValidationErrors ++ " (path: " ++ e.JSONPath ++ ")") ∧
    (e.ValidationErrors = "" →
      e.Error = "sendamatic api error (status " ++ toString e.StatusCode ++
        "): " ++ e.Message) ∧
    (∀ s n, APIError.Error { e with Sender := s, SMTPCode := n } = e.Error) := by
  refine ⟨fun h => ?_, fun h => ?_, fun s n => ?_⟩
  · simp [APIError.Error, h]
  · simp [APIError.Error, h]
  · simp [APIError.Error]

/-- C7 witness: the validation-error format at a concrete error value,
with non-zero `Sender` and `SMTPCode` fields not appearing. -/
theorem apiError_error_format_witness :
    APIError.Error
        { StatusCode := 422, Message := "Validation failed",
          ValidationErrors := "sender is required", JSONPath := "$.sender",
          Sender := "x@example.com", SMTPCode := 550 } =
      "sendamatic api error (status 422): sender is required (path: $.sender)" :=
  ((apiError_error_format
      { StatusCode := 422, Message := "Validation failed",
        ValidationErrors := "sender is required", JSONPath := "$.sender",
        Sender := "x@example.com", SMTPCode := 550 }).1
    (by decide)).trans (by decide)

/-! ## C4 / C9 — GetStatus and dynamic types -/

/-- A response whose status entry is numeric but has dynamic type `int`,
not `float64` (as Go code constructing the map directly can produce). -/
def intStatusResponse : SendResponse :=
  { StatusCode := 200,
    Recipients := [("a@x.com", (.vint 200, .vstr "m1"))] }

/-- C4 counterexample: in `intStatusResponse` the address `"a@x.com"` is
present and its stored status value is numeric, yet `GetStatus` returns
`(0, false)` rather than `(200, true)`. -/
theorem getStatus_numeric_claim_cex :
    intStatusResponse.Recipients.lookup "a@x.com" =
      some (.vint 200, .vstr "m1") ∧
    GoValue.isNumericValue (.vint 200) = true ∧
    intStatusResponse.GetStatus "a@x.com" = (0, false) :=
  ⟨rfl, rfl, rfl⟩

/-- C4 (amended): `GetStatus` returns `(code, true)` iff the address is
present and its stored status value has dynamic type `float64`, in which
case the code is the value truncated toward zero; if the address is
absent, or the value is non-numeric, or it is numeric of any other
dynamic type, it returns `(0, false)`. -/
theorem getStatus_characterization (r : SendResponse) (email : String) :
    (∀ p q, r.Recipients.lookup email = some p → p.1 = .vfloat q →
      r.GetStatus email = (floatToInt q, true)) ∧
    (∀ p, r.Recipients.lookup email = some p →
      (∀ q, p.1 ≠ GoValue.vfloat q) → r.GetStatus email = (0, false)) ∧
    (r.Recipients.lookup email = none → r.GetStatus email = (0, false)) := by
  refine ⟨?_, ?_, ?_⟩
  · rintro ⟨v1, v2⟩ q hp hq
    cases hq
    simp [SendResponse.GetStatus, hp]
  · rintro ⟨v1, v2⟩ hp hq
    cases v1 <;> first
      | exact absurd rfl (hq _)
      | simp [SendResponse.GetStatus, hp]
  · intro hn
    simp [SendResponse.GetStatus, hn]

/-- A response whose status entry is the `float64` value 200.5. -/
def fracStatusResponse : SendResponse :=
  { StatusCode := 200,
    Recipients := [("a@x.com", (.vfloat ⟨401, 2, by norm_num, by norm_num⟩,
      .vstr "m1"))] }

/-- C4 witness: on the `float64` status 200.5, `GetStatus` truncates to
200 (rounding would have produced 201). -/
theorem getStatus_characterization_witness :
    fracStatusResponse.GetStatus "a@x.com" = (200, true) :=
  ((getStatus_characterization fracStatusResponse "a@x.com").1
    (.vfloat ⟨401, 2, by norm_num, by norm_num⟩, .vstr "m1")
    ⟨401, 2, by norm_num, by norm_num⟩ rfl rfl).trans (by decide)

/-- A second response with an `int`-typed status entry, for C9. -/
def intStatusResponse9 : SendResponse :=
  { StatusCode := 200,
    Recipients := [("b@x.com", (.vint 250, .vstr "m2"))] }

/-- C9: `GetStatus` recognizes a status only at dynamic type `float64`:
whenever the stored first element is an `int`-typed value, it returns
`(0, false)` even though the value is numeric. -/
theorem getStatus_requires_float64 (r : SendResponse) (email : String)
    (p : GoValue × GoValue) (n : Int)
    (hp : r.Recipients.lookup email = some p) (hn : p.1 = .vint n) :
    r.GetStatus email = (0, false) ∧ p.1.isNumericValue = true := by
  obtain ⟨v1, v2⟩ := p
  cases hn
  constructor
  · simp [SendResponse.GetStatus, hp]
  · rfl

/-- C9 witness: the `int`-typed entry 250 is numeric but not found. -/
theorem getStatus_requires_float64_witness :
    intStatusResponse9.GetStatus "b@x.com" = (0, false) ∧
    GoValue.isNumericValue (.vint 250) = true :=
  getStatus_requires_float64 intStatusResponse9 "b@x.com"
    (.vint 250, .vstr "m2") 250 rfl rfl

/-! ## C10 — a `null` error body -/

/-- The raw body consisting exactly of the text `"null"`: a
syntactically valid JSON document that is not an object. -/
def nullBody : RawBody := { text := "null", json := some .null }

/-- C10: on the body `"null"`, `parseErrorResponse` succeeds without
populating any field — the message is empty rather than the raw text
`"null"`, and the status code is still set from the argument. -/
theorem parseErrorResponse_null_document (statusCode : Int) :
    parseErrorResponse statusCode nullBody = APIError.zeroWith statusCode ∧
    (parseErrorResponse statusCode nullBody).Message = "" ∧
    (parseErrorResponse statusCode nullBody).Message ≠ nullBody.text ∧
    (parseErrorResponse statusCode nullBody).StatusCode = statusCode := by
  refine ⟨rfl, rfl, ?_, rfl⟩
  intro h
  simp [parseErrorResponse, unmarshalAPIError, APIError.zeroWith, nullBody] at h

/-! ## C2 — parseErrorResponse totality and fallback -/

/-- `applyErrorField` never writes `StatusCode` (its tag is `json:"-"`). -/
theorem applyErrorField_statusCode (acc : APIError × Bool)
    (f : String × JValue) :
    (applyErrorField acc f).1.StatusCode = acc.1.StatusCode := by
  unfold applyErrorField
  split <;> first | rfl | (split <;> rfl)

/-- Folding field decodes never writes `StatusCode`. -/
theorem foldl_applyErrorField_statusCode (fields : List (String × JValue))
    (acc : APIError × Bool) :
    (fields.foldl applyErrorField acc).1.StatusCode = acc.1.StatusCode := by
  induction fields generalizing acc with
  | nil => rfl
  | cons f rest ih => rw [List.foldl_cons, ih, applyErrorField_statusCode]

/-- `json.Unmarshal` into `APIError` never writes `StatusCode`. -/
theorem unmarshalAPIError_statusCode (init : APIError) (v : JValue) :
    (unmarshalAPIError init v).1.StatusCode = init.StatusCode := by
  cases v <;> first
    | rfl
    | exact foldl_applyErrorField_statusCode _ _

/-- A status-≥400 body that is syntactically valid JSON but fails the
unmarshal: `validation_errors` is a string and is stored, while
`smtp_code` holds a string where a number is required — a type error. -/
def mixedErrorBody : RawBody :=
  { text := "\x7b\"validation_errors\":\"sender is required\",\"smtp_code\":\"oops\"\x7d",
    json := some (.obj [("validation_errors", .str "sender is required"),
      ("smtp_code", .str "oops")]) }

/-- C2 counterexample: on `mixedErrorBody` the unmarshal fails and the
message falls back to the raw body text, yet `ValidationErrors` stays
populated — not "all other optional fields empty/zero" as claimed. -/
theorem parseErrorResponse_partial_fields_cex :
    (unmarshalAPIError (APIError.zeroWith 400)
      (.obj [("validation_errors", .str "sender is required"),
        ("smtp_code", .str "oops")])).2 = false ∧
    (parseErrorResponse 400 mixedErrorBody).Message =
      mixedErrorBody.text ∧
    (parseErrorResponse 400 mixedErrorBody).ValidationErrors =
      "sender is required" ∧
    (parseErrorResponse 400 mixedErrorBody).ValidationErrors ≠ "" :=
  ⟨rfl, rfl, rfl, by decide⟩

/-- C2 (amended): `parseErrorResponse` is total and the result's status
code always equals the argument. If the body is not syntactically valid
JSON, the result is exactly the zero error carrying the raw body text as
message (hence an empty body yields an empty message). If the body is
valid JSON but the unmarshal reports failure, the message is the raw
body text verbatim while fields that decoded successfully remain
populated. If the unmarshal succeeds, the result is the populated
struct. -/
theorem parseErrorResponse_spec (statusCode : Int) (body : RawBody) :
    (parseErrorResponse statusCode body).StatusCode = statusCode ∧
    (body.json = none →
      parseErrorResponse statusCode body =
        { APIError.zeroWith statusCode with Message := body.text }) ∧
    (∀ v, body.json = some v →
      (unmarshalAPIError (APIError.zeroWith statusCode) v).2 = false →
      parseErrorResponse statusCode body =
        { (unmarshalAPIError (APIError.zeroWith statusCode) v).1 with
            Message := body.text }) ∧
    (∀ v, body.json = some v →
      (unmarshalAPIError (APIError.zeroWith statusCode) v).2 = true →
      parseErrorResponse statusCode body =
        (unmarshalAPIError (APIError.zeroWith statusCode) v).1) := by
  refine ⟨?_, ?_, ?_, ?_⟩
  · unfold parseErrorResponse
    cases hb : body.json with
    | none => rfl
    | some v =>
        cases hok : (unmarshalAPIError (APIError.zeroWith statusCode) v).2 with
        | false =>
            simp only [hok, if_false, Bool.false_eq_true]
            exact unmarshalAPIError_statusCode _ _
        | true =>
            simp only [hok, if_true]
            exact unmarshalAPIError_statusCode _ _
  · intro h
    simp [parseErrorResponse, h]
  · intro v hv hfail
    simp [parseErrorResponse, hv, hfail]
  · intro v hv hok
    simp [parseErrorResponse, hv, hok]

/-- The empty raw body: the empty string is not valid JSON. -/
def emptyRawBody : RawBody := { text := "", json := none }

/-- C2 witness: the empty body at status 404 yields the zero error with
empty message and status 404. -/
theorem parseErrorResponse_spec_witness :
    parseErrorResponse 404 emptyRawBody =
      { APIError.zeroWith 404 with Message := "" } :=
  (parseErrorResponse_spec 404 emptyRawBody).2.1 rfl

/-! ## C3 — Send validates first and issues at most one request -/

/-- C3: for every client, transport and message: when validation fails,
`Send` fails immediately with the wrapped validation error and issues no
request; and on every path — transport failure, read failure, API error,
decode failure or success — at most one request is issued (no retry). -/
theorem send_validation_short_circuit_and_at_most_one_request
    (c : Client) (net : HTTPRequest → NetOutcome) (msg : Message) :
    (∀ e, msg.Validate = some e →
      c.Send net msg = (.error (.validationFailed e), [])) ∧
    (c.Send net msg).2.length ≤ 1 := by
  constructor
  · intro e he
    simp [Client.Send, he]
  · unfold Client.Send
    cases msg.Validate with
    | some e => simp
    | none =>
        cases net (c.buildRequest msg) with
        | transportError e => simp
        | readError s e => simp
        | response status body =>
            by_cases hs : status ≥ 400
            · simp [hs]
            · rcases hb : body.json with _ | v
              · simp [hs, hb]
              · rcases hr : unmarshalRecipients v with _ | recips
                · simp [hs, hb, hr]
                · simp [hs, hb, hr]

/-- The client the tests construct. -/
def client0 : Client := NewClient "user" "pass"

/-- A transport answering 200 with the empty JSON object. -/
def respNet : HTTPRequest → NetOutcome :=
  fun _ => .response 200 { text := "\x7b\x7d", json := some (.obj []) }

/-- A message missing only its sender. -/
def noSenderMessage : Message :=
  { To := ["to@example.com"], CC := [], BCC := [], Sender := "",
    Subject := "Hi", TextBody := "Hello", HTMLBody := "", Headers := [],
    Attachments := [] }

/-- A message passing validation. -/
def validMessage : Message :=
  { To := ["to@example.com"], CC := [], BCC := [],
    Sender := "sender@example.com", Subject := "Hi", TextBody := "Hello",
    HTMLBody := "", Headers := [], Attachments := [] }

/-- C3 witness: concretely, the sender-less message yields the wrapped
validation error with an empty request trace, and the valid message
issues at most one request. -/
theorem send_validation_short_circuit_witness :
    client0.Send respNet noSenderMessage =
      (.error (.validationFailed "sender is required"), []) ∧
    (client0.Send respNet validMessage).2.length ≤ 1 :=
  ⟨(send_validation_short_circuit_and_at_most_one_request client0 respNet
      noSenderMessage).1 "sender is required" rfl,
   (send_validation_short_circuit_and_at_most_one_request client0 respNet
      validMessage).2⟩

/-! ## C5 — success-body decode -/

/-- The per-value decode succeeds exactly on arrays (of any length) and
null. -/
theorem unmarshalPair_isSome (j : JValue) :
    (unmarshalPair j).isSome =
      (match j with
       | .null => true
       | .arr _ => true
       | _ => false) := by
  cases j <;> rfl

/-- The recipients fold succeeds iff every value decodes, regardless of
the accumulator. -/
theorem foldlM_unmarshalPair_isSome (fields : List (String × JValue))
    (acc : List (String × (GoValue × GoValue))) :
    (fields.foldlM (fun acc f =>
        (unmarshalPair f.2).map (fun p => assocInsert acc f.1 p)) acc).isSome
      = fields.all (fun f => (unmarshalPair f.2).isSome) := by
  induction fields generalizing acc with
  | nil => rfl
  | cons f rest ih =>
      rw [List.foldlM_cons, List.all_cons]
      cases h : unmarshalPair f.2 with
      | none => simp [h]
      | some p => simp [h, ih]

/-- A success body whose only value is a three-element array. -/
def threeElementBody : JValue :=
  .obj [("a@x.com", .arr [.num 200, .str "m1", .num 7])]

/-- C5 counterexample: a body whose only value is a three-element array
— not a 2-element array — decodes successfully, keeping the first two
elements, instead of failing the call as claimed. -/
theorem unmarshalRecipients_long_array_cex :
    unmarshalRecipients threeElementBody =
      some [("a@x.com", (.vfloat 200, .vstr "m1"))] ∧
    ¬ ([JValue.num 200, JValue.str "m1", JValue.num 7].length = 2) :=
  ⟨rfl, by decide⟩

/-- C5 (amended): the success-body decode fails the whole call iff the
body is a JSON value other than an object or null, or some value of the
object is neither an array nor null; array values of any length are
accepted, stored as their first two elements decoded as-is into dynamic
values (padded with nil when shorter), heterogeneous element types
tolerated until query time; a null body yields an empty mapping; and on
a success-status response whose body fails this decode, `Send` fails the
whole call with the unmarshal error. -/
theorem unmarshalRecipients_spec (v : JValue) :
    (unmarshalRecipients v).isSome = recipientsBodyAccepted v ∧
    unmarshalRecipients JValue.null = some [] ∧
    (∀ elems, unmarshalPair (JValue.arr elems) =
      some (((elems.get? 0).map JValue.toGo).getD .vnil,
            ((elems.get? 1).map JValue.toGo).getD .vnil)) ∧
    (∀ (c : Client) (net : HTTPRequest → NetOutcome) (msg : Message)
        (status : Int) (body : RawBody) (w : JValue),
      msg.Validate = none →
      net (c.buildRequest msg) = .response status body →
      status < 400 → body.json = some w → unmarshalRecipients w = none →
      (c.Send net msg).1 = .error .unmarshalFailed) := by
  refine ⟨?_, rfl, fun elems => rfl, ?_⟩
  · cases v <;> try rfl
    case obj fields =>
      simp only [unmarshalRecipients, recipientsBodyAccepted,
        foldlM_unmarshalPair_isSome, unmarshalPair_isSome]
  · intro c net msg status body w h1 h2 h3 h4 h5
    have hs : ¬ status ≥ 400 := by omega
    simp [Client.Send, h1, h2, hs, h4, h5]

/-- A transport answering 200 with a JSON array body. -/
def badSuccessNet : HTTPRequest → NetOutcome :=
  fun _ => .response 200 { text := "[1]", json := some (.arr [.num 1]) }

/-- C5 witness: a 200 response whose body is a JSON array (not an
object, not null) makes `Send` fail with the unmarshal error. -/
theorem unmarshalRecipients_spec_witness :
    (client0.Send badSuccessNet validMessage).1 =
      .error .unmarshalFailed :=
  (unmarshalRecipients_spec (.arr [.num 1])).2.2.2 client0 badSuccessNet
    validMessage 200 { text := "[1]", json := some (.arr [.num 1]) }
    (.arr [.num 1]) rfl rfl (by omega) rfl rfl

/-! ## C8 — base64 round-trip at attach time -/

/-- Every six-bit value maps into the alphabet and back. -/
theorem sextetVal_sextetChar : ∀ s < 64, sextetVal (sextetChar s) = some s := by
  decide

/-- No six-bit value maps to the padding character. -/
theorem sextetChar_ne_pad : ∀ s < 64, sextetChar s ≠ '=' := by
  decide

/-- Decoding inverts encoding on any byte list. -/
theorem base64DecodeList_encodeList :
    ∀ (data : List Nat), (∀ b ∈ data, b < 256) →
      base64DecodeList (base64EncodeList data) = some data
  | [], _ => rfl
  | [b0], h => by
      have hb0 : b0 < 256 := h b0 (by simp)
      have h1 := sextetVal_sextetChar (b0 / 4) (by omega)
      have h2 := sextetVal_sextetChar (b0 % 4 * 16) (by omega)
      simp only [base64EncodeList, base64DecodeList, h1, h2]
      simp only [List.cons.injEq, and_true, reduceCtorEq]
      simp
      omega
  | [b0, b1], h => by
      have hb0 : b0 < 256 := h b0 (by simp)
      have hb1 : b1 < 256 := h b1 (by simp)
      have h1 := sextetVal_sextetChar (b0 / 4) (by omega)
      have h2 := sextetVal_sextetChar (b0 % 4 * 16 + b1 / 16) (by omega)
      have h3 := sextetVal_sextetChar (b1 % 16 * 4) (by omega)
      have hne := sextetChar_ne_pad (b1 % 16 * 4) (by omega)
      simp only [base64EncodeList, base64DecodeList, h1, h2, h3,
        if_neg hne]
      simp
      constructor <;> omega
  | b0 :: b1 :: b2 :: rest, h => by
      have hb0 : b0 < 256 := h b0 (by simp)
      have hb1 : b1 < 256 := h b1 (by simp)
      have hb2 : b2 < 256 := h b2 (by simp)
      have hrest := base64DecodeList_encodeList rest
        (fun b hb => h b (by simp at hb ⊢; tauto))
      have h1 := sextetVal_sextetChar (b0 / 4) (by omega)
      have h2 := sextetVal_sextetChar (b0 % 4 * 16 + b1 / 16) (by omega)
      have h3 := sextetVal_sextetChar (b1 % 16 * 4 + b2 / 64) (by omega)
      have h4 := sextetVal_sextetChar (b2 % 64) (by omega)
      have hne2 := sextetChar_ne_pad (b1 % 16 * 4 + b2 / 64) (by omega)
      have hne3 := sextetChar_ne_pad (b2 % 64) (by omega)
      simp only [base64EncodeList, base64DecodeList, h1, h2, h3, h4,
        if_neg hne2, if_neg hne3, hrest, Option.map_some]
      simp
      refine ⟨by omega, by omega, by omega⟩

/-- C8: for every message, filename, MIME type and byte sequence,
`AttachFile` appends an attachment storing the base64 encoding computed
at attach time, and decoding that stored payload reproduces the bytes
exactly. -/
theorem attachFile_base64_roundtrip (m : Message)
    (filename mimeType : String) (data : List Nat)
    (h : ∀ b ∈ data, b < 256) :
    (m.AttachFile filename mimeType data).Attachments =
      m.Attachments ++
        [{ Filename := filename, Data := base64EncodeToString data,
           MimeType := mimeType }] ∧
    base64DecodeString (base64EncodeToString data) = some data := by
  refine ⟨rfl, ?_⟩
  show base64DecodeList (String.mk (base64EncodeList data)).toList = some data
  exact base64DecodeList_encodeList data h

/-- C8 witness: attaching the bytes of `"Hi!"` stores `"SGkh"` and
decoding it reproduces the bytes. -/
theorem attachFile_base64_roundtrip_witness :
    base64DecodeString (base64EncodeToString [72, 105, 33]) =
      some [72, 105, 33] :=
  (attachFile_base64_roundtrip NewMessage "hi.txt" "text/plain"
    [72, 105, 33] (by decide)).2

end Sendamatic
